import Mathlib

/-!
Verification of the options-chain strike-filtering service (`src/index.ts`).

Numbers are modelled as exact rationals (`ℚ`).  The JavaScript remainder
operator `%` is truncated division remainder, modelled by `jsMod`.  Division
by zero in `ℚ` yields `0`; the only place this matters is an underlying
price of `0`, where the observable result of the filter coincides with the
JavaScript behaviour (see the zero-price theorem below).
-/

/-- Truncation toward zero of a rational, as JavaScript coerces the quotient
inside the remainder operation. -/
def ratTrunc (q : ℚ) : ℤ :=
  if 0 ≤ q then ⌊q⌋ else -⌊-q⌋

/-- JavaScript `a % n`: remainder of truncated division, sign of the dividend. -/
def jsMod (a n : ℚ) : ℚ :=
  a - n * (ratTrunc (a / n) : ℚ)

/-- `filterStrikesByPercentage` (src/index.ts:153-166): the strike-price bounds
`lowerBound = underlyingPrice * (1 - percentage/100)` and
`upperBound = underlyingPrice * (1 + percentage/100)`. -/
def filterStrikesByPercentage (underlyingPrice percentage : ℚ) : ℚ × ℚ :=
  (underlyingPrice * (1 - percentage / 100), underlyingPrice * (1 + percentage / 100))

/-- The distance computed in `strikesWithDistance` (src/index.ts:195-198):
`Math.abs((strike - underlyingPrice) / underlyingPrice) * 100`. -/
def significantDistance (underlyingPrice strike : ℚ) : ℚ :=
  |(strike - underlyingPrice) / underlyingPrice| * 100

/-- The tier predicate of `filterSignificantStrikePrices` (src/index.ts:203-245),
deciding whether a strike at the given distance is kept. -/
def keepSignificant (underlyingPrice strike distance : ℚ) : Bool :=
  if distance ≤ 2 then
    true
  else if distance ≤ 5 then
    decide (jsMod strike 2 < 1/100) || decide (jsMod strike 2 > 199/100)
  else if distance ≤ 10 then
    if underlyingPrice > 100 then
      decide (jsMod strike 5 < 1/100) || decide (jsMod strike 5 > 499/100)
    else
      decide (strike.den = 1)
  else if distance ≤ 20 then
    if underlyingPrice > 100 then
      decide (jsMod strike 10 < 1/100) || decide (jsMod strike 10 > 999/100)
    else
      decide (jsMod strike 5 < 1/100) || decide (jsMod strike 5 > 499/100)
  else if underlyingPrice > 500 then
    decide (jsMod strike 50 < 1/100) || decide (jsMod strike 50 > 4999/100)
  else if underlyingPrice > 100 then
    decide (jsMod strike 25 < 1/100) || decide (jsMod strike 25 > 2499/100)
  else
    decide (jsMod strike 10 < 1/100) || decide (jsMod strike 10 > 999/100)

/-- `filterSignificantStrikePrices` (src/index.ts:175-254): sort the strikes,
pair each with its percentage distance, keep those inside the bounds, apply
the tier predicate, and return the surviving strikes. -/
def filterSignificantStrikePrices (underlyingPrice percentage : ℚ)
    (strikePrices : List ℚ) : List ℚ :=
  let bounds := filterStrikesByPercentage underlyingPrice percentage
  let sortedStrikes := strikePrices.mergeSort (fun a b => decide (a ≤ b))
  let strikesWithDistance :=
    sortedStrikes.map (fun strike => (strike, significantDistance underlyingPrice strike))
  (((strikesWithDistance.filter
        (fun sd => decide (bounds.1 ≤ sd.1) && decide (sd.1 ≤ bounds.2))).filter
      (fun sd => keepSignificant underlyingPrice sd.1 sd.2)).map Prod.fst)

/-- The full per-strike test of `filterSignificantStrikePrices`: inside the
bounds and passing the tier predicate. -/
def significantTest (underlyingPrice percentage strike : ℚ) : Bool :=
  (decide ((filterStrikesByPercentage underlyingPrice percentage).1 ≤ strike) &&
      decide (strike ≤ (filterStrikesByPercentage underlyingPrice percentage).2)) &&
    keepSignificant underlyingPrice strike (significantDistance underlyingPrice strike)

/-- The spec's tolerant divisibility: the strike's remainder modulo `n` is
within `0.01` of `0` or within `0.01` of `n`. -/
def specDivisibleBy (s n : ℚ) : Prop :=
  |jsMod s n| < 1/100 ∨ |jsMod s n - n| < 1/100

/-- The spec's tier rule for keeping a strike, stated over the percentage
distance `|s - P| / P * 100` with `≤` tier boundaries and strict `>`
price-band boundaries. -/
def specTierKeep (P s : ℚ) : Prop :=
  if |s - P| / P * 100 ≤ 2 then True
  else if |s - P| / P * 100 ≤ 5 then specDivisibleBy s 2
  else if |s - P| / P * 100 ≤ 10 then
    if 100 < P then specDivisibleBy s 5 else ∃ k : ℤ, s = (k : ℚ)
  else if |s - P| / P * 100 ≤ 20 then
    if 100 < P then specDivisibleBy s 10 else specDivisibleBy s 5
  else if 500 < P then specDivisibleBy s 50
  else if 100 < P then specDivisibleBy s 25
  else specDivisibleBy s 10

/-- The Greeks block of an option contract (src/index.ts:288-294). -/
structure GreeksData where
  delta : ℚ
  gamma : ℚ
  theta : ℚ
  vega : ℚ
  mid_iv : ℚ

/-- An option contract as mapped from the raw Tradier payload
(src/index.ts:271-285). -/
structure OptionData where
  symbol : String
  description : String
  last : Option ℚ
  volume : ℚ
  bid : ℚ
  ask : ℚ
  underlying : String
  strike : ℚ
  change_percentage : Option ℚ
  open_interest : ℚ
  expiration_date : String
  option_type : String
  greeks : Option GreeksData := none

/-- The per-contract predicate of `qualityFilteredOptions`
(src/index.ts:492-505): reject a type mismatch against a `call`/`put`
filter, then require `volume > 0`, `bid > 0.1` and `ask > 0.1`. -/
def qualityFilter (option_type : Option String) (o : OptionData) : Bool :=
  if option_type = some "call" ∧ o.option_type ≠ "call" then false
  else if option_type = some "put" ∧ o.option_type ≠ "put" then false
  else decide (o.volume > 0) && decide (o.bid > 1/10) && decide (o.ask > 1/10)

/-- The `strikePercentage` computation of the handler (src/index.ts:519-523):
clamp a supplied `strike_percentage` into `[0, 100]`, fall back to `20` when
it is absent. -/
def strikePercentage (strike_percentage : Option ℚ) : ℚ :=
  match strike_percentage with
  | some v => max 0 (min 100 v)
  | none => 20

/-- The pure tail of the find-options-chain pipeline (src/index.ts:492-553):
quality filtering, strike extraction, significance selection, and the final
retention of contracts whose strike is significant. -/
def buildFilteredChain (currentPrice : ℚ) (option_type : Option String)
    (strike_percentage : Option ℚ) (mappedOptions : List OptionData) :
    List OptionData :=
  let qualityFilteredOptions := mappedOptions.filter (qualityFilter option_type)
  let sp := strikePercentage strike_percentage
  let allStrikes := qualityFilteredOptions.map (fun o => o.strike)
  let significantStrikes := filterSignificantStrikePrices currentPrice sp allStrikes
  qualityFilteredOptions.filter (fun o => decide (o.strike ∈ significantStrikes))

/-- The spec's step 3 variant of the pipeline tail: the Significance Selector
receives the distinct strike values of the surviving contracts rather than
the implementation's list with duplicates. -/
def buildFilteredChainDistinct (currentPrice : ℚ) (option_type : Option String)
    (strike_percentage : Option ℚ) (mappedOptions : List OptionData) :
    List OptionData :=
  let qualityFilteredOptions := mappedOptions.filter (qualityFilter option_type)
  let sp := strikePercentage strike_percentage
  let distinctStrikes := (qualityFilteredOptions.map (fun o => o.strike)).dedup
  let significantStrikes := filterSignificantStrikePrices currentPrice sp distinctStrikes
  qualityFilteredOptions.filter (fun o => decide (o.strike ∈ significantStrikes))

/-- The arguments of a find-options-chain invocation (src/index.ts:257-263). -/
structure FindOptionsChainParams where
  symbol : String
  expiration : Option String := none
  greeks : Option Bool := none
  option_type : Option String := none
  strike_percentage : Option ℚ := none

/-- The two network fetches the find-options-chain handler can issue. -/
inductive FetchEvent where
  | quoteFetch
  | chainFetch
  deriving DecidableEq

/-- JavaScript falsiness of `process.env.token` (src/index.ts:325): the
variable is unset or the empty string. -/
def tokenMissing : Option String → Bool
  | none => true
  | some s => s == ""

/-- The find-options-chain branch of the tool-call handler
(src/index.ts:309-554): the token guard, then the quote fetch, then the
chain fetch, then the pure pipeline.  The two Tradier responses are passed
in as already-delivered results, and the fetches actually issued are
recorded in order. -/
def findOptionsChainHandler (token : Option String)
    (params : FindOptionsChainParams)
    (quoteResult : Except String (Option ℚ))
    (chainResult : Except String (List OptionData)) :
    Except String (List OptionData) × List FetchEvent :=
  if tokenMissing token then
    (Except.error "API token is missing. Please set the 'token' environment variable.",
      [])
  else
    match quoteResult with
    | Except.error statusText =>
        (Except.error ("Failed to fetch quote: " ++ statusText ++
          " when using params: " ++ params.symbol), [FetchEvent.quoteFetch])
    | Except.ok lastQuote =>
        let currentPrice := lastQuote.getD 0
        match chainResult with
        | Except.error statusText =>
            (Except.error ("Failed to fetch options chain: " ++ statusText),
              [FetchEvent.quoteFetch, FetchEvent.chainFetch])
        | Except.ok mappedOptions =>
            (Except.ok (buildFilteredChain currentPrice params.option_type
                params.strike_percentage mappedOptions),
              [FetchEvent.quoteFetch, FetchEvent.chainFetch])

/-- The `strike_percentage` default advertised in the find-options-chain
tool's inputSchema (src/index.ts:93-99). -/
def toolSchemaStrikePercentageDefault : ℚ := 10

/-- A concrete call-strike-115 contract used to separate the handler's
fallback percentage from the schema's advertised default. -/
def o115 : OptionData :=
  ⟨"O115", "", none, 1, 1, 1, "XYZ", 115, none, 0, "2026-01-16", "call", none⟩

lemma filterSignificantStrikePrices_eq_filter (underlyingPrice percentage : ℚ)
    (strikePrices : List ℚ) :
    filterSignificantStrikePrices underlyingPrice percentage strikePrices =
      (strikePrices.mergeSort (fun a b => decide (a ≤ b))).filter
        (significantTest underlyingPrice percentage) := by
  unfold filterSignificantStrikePrices
  simp only [List.filter_map, List.map_map, List.filter_filter]
  have h : (Prod.fst ∘ fun strike : ℚ =>
      (strike, significantDistance underlyingPrice strike)) = id := rfl
  rw [h, List.map_id]
  apply List.filter_congr
  intro s _
  simp only [Function.comp, significantTest]
  rw [Bool.and_comm]

lemma mem_filterSignificantStrikePrices {underlyingPrice percentage s : ℚ}
    {strikePrices : List ℚ} :
    s ∈ filterSignificantStrikePrices underlyingPrice percentage strikePrices ↔
      s ∈ strikePrices ∧ significantTest underlyingPrice percentage s = true := by
  rw [filterSignificantStrikePrices_eq_filter, List.mem_filter, List.mem_mergeSort]

lemma ratTrunc_of_nonneg {q : ℚ} (h : 0 ≤ q) : ratTrunc q = ⌊q⌋ := by
  simp [ratTrunc, h]

lemma jsMod_eq_fract {s n : ℚ} (hs : 0 ≤ s) (hn : 0 < n) :
    jsMod s n = n * Int.fract (s / n) := by
  have hq : 0 ≤ s / n := div_nonneg hs hn.le
  rw [jsMod, ratTrunc_of_nonneg hq, Int.fract, mul_sub, mul_div_cancel₀ _ hn.ne']

lemma jsMod_nonneg {s n : ℚ} (hs : 0 ≤ s) (hn : 0 < n) : 0 ≤ jsMod s n := by
  rw [jsMod_eq_fract hs hn]
  exact mul_nonneg hn.le (Int.fract_nonneg _)

lemma jsMod_lt {s n : ℚ} (hs : 0 ≤ s) (hn : 0 < n) : jsMod s n < n := by
  rw [jsMod_eq_fract hs hn]
  calc n * Int.fract (s / n) < n * 1 :=
        (mul_lt_mul_left hn).mpr (Int.fract_lt_one _)
    _ = n := mul_one n

lemma significantDistance_of_nonneg {P s : ℚ} (hP : 0 ≤ P) :
    significantDistance P s = |s - P| / P * 100 := by
  rw [significantDistance, abs_div, abs_of_nonneg hP]

lemma divisibleBy_bridge {s n : ℚ} (hs : 0 ≤ s) (hn : 0 < n) :
    ((jsMod s n < 1/100 ∨ n - 1/100 < jsMod s n) ↔ specDivisibleBy s n) := by
  have h0 := jsMod_nonneg hs hn
  have h1 := jsMod_lt hs hn
  unfold specDivisibleBy
  rw [abs_of_nonneg h0, abs_of_nonpos (by linarith : jsMod s n - n ≤ 0)]
  constructor
  · rintro (h | h)
    · exact Or.inl h
    · exact Or.inr (by linarith)
  · rintro (h | h)
    · exact Or.inl h
    · exact Or.inr (by linarith)

lemma isInteger_bridge (s : ℚ) : (s.den = 1) ↔ ∃ k : ℤ, s = (k : ℚ) := by
  constructor
  · intro h
    exact ⟨s.num, ((Rat.den_eq_one_iff s).mp h).symm⟩
  · rintro ⟨k, rfl⟩
    exact Rat.den_intCast k

lemma keepSignificant_iff_specTierKeep {P s : ℚ} (hP : 0 ≤ P) (hs : 0 ≤ s) :
    (keepSignificant P s (significantDistance P s) = true ↔ specTierKeep P s) := by
  rw [significantDistance_of_nonneg hP]
  unfold keepSignificant specTierKeep
  have h2 := divisibleBy_bridge hs (by norm_num : (0:ℚ) < 2)
  have h5 := divisibleBy_bridge hs (by norm_num : (0:ℚ) < 5)
  have h10 := divisibleBy_bridge hs (by norm_num : (0:ℚ) < 10)
  have h25 := divisibleBy_bridge hs (by norm_num : (0:ℚ) < 25)
  have h50 := divisibleBy_bridge hs (by norm_num : (0:ℚ) < 50)
  have e2 : (199 : ℚ)/100 = 2 - 1/100 := by norm_num
  have e5 : (499 : ℚ)/100 = 5 - 1/100 := by norm_num
  have e10 : (999 : ℚ)/100 = 10 - 1/100 := by norm_num
  have e25 : (2499 : ℚ)/100 = 25 - 1/100 := by norm_num
  have e50 : (4999 : ℚ)/100 = 50 - 1/100 := by norm_num
  split_ifs with hd1 hd2 hd3 hb1 hd4 hb2 hb3 hb4 <;>
    simp only [Bool.or_eq_true, decide_eq_true_eq, gt_iff_lt, e2, e5, e10, e25, e50,
      h2, h5, h10, h25, h50, isInteger_bridge, iff_true]

lemma clamp_idem (v : ℚ) : max 0 (min 100 (max 0 (min 100 v))) = max 0 (min 100 v) := by
  have h1 : max 0 (min 100 v) ≤ 100 := max_le (by norm_num) (min_le_left _ _)
  rw [min_eq_right h1, ← max_assoc, max_self]

lemma o115_strike : o115.strike = 115 := rfl

lemma o115_quality : qualityFilter none o115 = true := by
  rw [qualityFilter, if_neg (by simp), if_neg (by simp)]
  norm_num [o115]

lemma distance_100_115 : significantDistance 100 115 = 15 := by
  rw [significantDistance, show ((115:ℚ) - 100) / 100 = 3/20 by norm_num,
    abs_of_nonneg (by norm_num : (0:ℚ) ≤ 3/20)]
  norm_num

lemma jsMod_115_5 : jsMod 115 5 = 0 := by
  norm_num [jsMod, ratTrunc]

lemma keep_100_115_15 : keepSignificant 100 115 15 = true := by
  rw [keepSignificant]
  norm_num [jsMod_115_5]

lemma significantTest_100_20_115 : significantTest 100 20 115 = true := by
  simp only [significantTest, filterStrikesByPercentage, distance_100_115,
    keep_100_115_15]
  norm_num

lemma significantTest_100_10_115 : significantTest 100 10 115 = false := by
  simp only [significantTest, filterStrikesByPercentage]
  norm_num

/-- C1: for a nonnegative underlying price `P` and a percentage `R ∈ [0,100]`,
an input strike `s` is kept by the Significance Selector iff it lies within
`[P*(1-R/100), P*(1+R/100)]` and satisfies the distance-tier rule: distance
`≤ 2`% keep unconditionally; `2`–`5`% keep iff tolerantly divisible by 2;
`5`–`10`% keep iff divisible by 5 when `P > 100`, else iff a whole number;
`10`–`20`% keep iff divisible by 10 when `P > 100`, else iff divisible by 5;
`> 20`% keep iff divisible by 50 when `P > 500`, by 25 when `100 < P ≤ 500`,
by 10 when `P ≤ 100` — divisibility by `N` meaning the remainder is within
`0.01` of `0` or of `N`, tier boundaries using `≤` and price-band boundaries
using strict `>`.  Strikes outside the bounds are dropped. -/
theorem significant_selector_keeps_iff_tier_rule (P R s : ℚ) (strikes : List ℚ)
    (hP : 0 ≤ P) (hR0 : 0 ≤ R) (hR1 : R ≤ 100) (hs : s ∈ strikes) :
    (s ∈ filterSignificantStrikePrices P R strikes ↔
      (P * (1 - R/100) ≤ s ∧ s ≤ P * (1 + R/100) ∧ specTierKeep P s)) := by
  rw [mem_filterSignificantStrikePrices]
  simp only [hs, true_and, significantTest, filterStrikesByPercentage,
    Bool.and_eq_true, decide_eq_true_eq]
  have hlb : 0 ≤ P * (1 - R/100) := mul_nonneg hP (by linarith)
  constructor
  · rintro ⟨⟨hl, hu⟩, hk⟩
    exact ⟨hl, hu, (keepSignificant_iff_specTierKeep hP (le_trans hlb hl)).mp hk⟩
  · rintro ⟨hl, hu, hk⟩
    exact ⟨⟨hl, hu⟩, (keepSignificant_iff_specTierKeep hP (le_trans hlb hl)).mpr hk⟩

theorem significant_selector_keeps_iff_tier_rule_witness :
    ((550 : ℚ) ∈ filterSignificantStrikePrices 556 10 [550] ↔
      ((556 : ℚ) * (1 - 10/100) ≤ 550 ∧ (550 : ℚ) ≤ 556 * (1 + 10/100) ∧
        specTierKeep 556 550)) :=
  significant_selector_keeps_iff_tier_rule 556 10 550 [550]
    (by norm_num) (by norm_num) (by norm_num) (by simp)

/-- C2: for `P > 0` and `R ∈ [0,100]` the Bounds Calculator returns exactly
`lowerBound = P*(1 - R/100)` and `upperBound = P*(1 + R/100)`, these bounds
bracket `P`, and their width is `2*P*R/100`. -/
theorem bounds_calculator_correct (P R : ℚ) (hP : 0 < P) (hR0 : 0 ≤ R)
    (hR1 : R ≤ 100) :
    (filterStrikesByPercentage P R).1 = P * (1 - R/100) ∧
    (filterStrikesByPercentage P R).2 = P * (1 + R/100) ∧
    (filterStrikesByPercentage P R).1 ≤ P ∧ P ≤ (filterStrikesByPercentage P R).2 ∧
    (filterStrikesByPercentage P R).2 - (filterStrikesByPercentage P R).1 =
      2 * P * R / 100 := by
  have hPR : 0 ≤ P * R := mul_nonneg hP.le hR0
  refine ⟨rfl, rfl, ?_, ?_, ?_⟩
  · show P * (1 - R/100) ≤ P
    nlinarith
  · show P ≤ P * (1 + R/100)
    nlinarith
  · show P * (1 + R/100) - P * (1 - R/100) = 2 * P * R / 100
    ring

theorem bounds_calculator_correct_witness :
    (filterStrikesByPercentage 200 10).1 = 200 * (1 - 10/100) ∧
    (filterStrikesByPercentage 200 10).2 = 200 * (1 + 10/100) ∧
    (filterStrikesByPercentage 200 10).1 ≤ 200 ∧
    (200 : ℚ) ≤ (filterStrikesByPercentage 200 10).2 ∧
    (filterStrikesByPercentage 200 10).2 - (filterStrikesByPercentage 200 10).1 =
      2 * 200 * 10 / 100 :=
  bounds_calculator_correct 200 10 (by norm_num) (by norm_num) (by norm_num)

/-- C3: every strike returned by the Significance Selector is a member of the
input strike list; the selector never invents a strike value. -/
theorem significant_selector_subset (P R x : ℚ) (S : List ℚ)
    (hx : x ∈ filterSignificantStrikePrices P R S) : x ∈ S :=
  (mem_filterSignificantStrikePrices.mp hx).1

theorem significant_selector_subset_witness : (100 : ℚ) ∈ [(100 : ℚ)] :=
  significant_selector_subset 100 10 100 [100] (by
    rw [mem_filterSignificantStrikePrices]
    refine ⟨by simp, ?_⟩
    norm_num [significantTest, filterStrikesByPercentage, keepSignificant,
      significantDistance])

/-- C4: the Significance Selector is idempotent — applying it a second time to
its own output with the same price and percentage returns the output
unchanged. -/
theorem significant_selector_idempotent (P R : ℚ) (S : List ℚ) :
    filterSignificantStrikePrices P R (filterSignificantStrikePrices P R S) =
      filterSignificantStrikePrices P R S := by
  rw [filterSignificantStrikePrices_eq_filter P R
      (filterSignificantStrikePrices P R S),
    filterSignificantStrikePrices_eq_filter P R S]
  have htrans : ∀ a b c : ℚ, (decide (a ≤ b)) = true → (decide (b ≤ c)) = true →
      (decide (a ≤ c)) = true := by
    intro a b c h1 h2
    simp only [decide_eq_true_eq] at *
    exact le_trans h1 h2
  have htotal : ∀ a b : ℚ, ((decide (a ≤ b)) || (decide (b ≤ a))) = true := by
    intro a b
    simp only [Bool.or_eq_true, decide_eq_true_eq]
    exact le_total a b
  have hsorted := List.Pairwise.filter (significantTest P R)
    (List.sorted_mergeSort htrans htotal S)
  rw [List.mergeSort_of_sorted hsorted, List.filter_filter]
  exact List.filter_congr (fun x _ => Bool.and_self _)

/-- C5: handing the Significance Selector the strike list with duplicates, as
the implementation does, retains exactly the same contracts as handing it the
distinct strike set, as the spec describes. -/
theorem pipeline_distinct_strikes_equivalent (currentPrice : ℚ)
    (option_type : Option String) (strike_percentage : Option ℚ)
    (mappedOptions : List OptionData) :
    buildFilteredChain currentPrice option_type strike_percentage mappedOptions =
      buildFilteredChainDistinct currentPrice option_type strike_percentage
        mappedOptions := by
  simp only [buildFilteredChain, buildFilteredChainDistinct]
  apply List.filter_congr
  intro o _
  apply decide_eq_decide.mpr
  rw [mem_filterSignificantStrikePrices, mem_filterSignificantStrikePrices,
    List.mem_dedup]

/-- C6: the Quality & Type Filter keeps a contract iff the option type matches
a `call`/`put` filter exactly and `volume > 0`, `bid > 0.10`, `ask > 0.10`;
consequently zero volume always excludes, and `bid = 0.10` exactly excludes. -/
theorem quality_filter_keeps_iff (ot : Option String) (o : OptionData) :
    ((qualityFilter ot o = true ↔
        ((ot = some "call" → o.option_type = "call") ∧
          (ot = some "put" → o.option_type = "put") ∧
          0 < o.volume ∧ 1/10 < o.bid ∧ 1/10 < o.ask)) ∧
      (o.volume = 0 → qualityFilter ot o = false) ∧
      (o.bid = 1/10 → qualityFilter ot o = false)) := by
  refine ⟨?_, ?_, ?_⟩
  · unfold qualityFilter
    split_ifs with h1 h2
    · obtain ⟨ha, hb⟩ := h1
      constructor
      · intro h
        exact absurd h (by simp)
      · rintro ⟨hc, -⟩
        exact absurd (hc ha) hb
    · obtain ⟨ha, hb⟩ := h2
      constructor
      · intro h
        exact absurd h (by simp)
      · rintro ⟨-, hc, -⟩
        exact absurd (hc ha) hb
    · push_neg at h1 h2
      simp only [Bool.and_eq_true, decide_eq_true_eq, gt_iff_lt]
      constructor
      · rintro ⟨⟨hv, hb⟩, ha⟩
        exact ⟨h1, h2, hv, hb, ha⟩
      · rintro ⟨-, -, hv, hb, ha⟩
        exact ⟨⟨hv, hb⟩, ha⟩
  · intro hv
    unfold qualityFilter
    split_ifs <;> simp [hv]
  · intro hb
    unfold qualityFilter
    split_ifs <;> simp [hb]

/-- C7: the percentage handed to the Significance Selector is `20` when
`strike_percentage` is unspecified and `max 0 (min 100 v)` when `v` is
supplied; a supplied value is clamped into `[0, 100]`, and an out-of-range
value makes the pipeline behave exactly as its clamped value does instead of
being rejected. -/
theorem strike_percentage_default_twenty_and_clamped :
    strikePercentage none = 20 ∧
    (∀ v : ℚ, strikePercentage (some v) = max 0 (min 100 v)) ∧
    (∀ v : ℚ, 0 ≤ strikePercentage (some v) ∧ strikePercentage (some v) ≤ 100) ∧
    (∀ (P : ℚ) (ot : Option String) (v : ℚ) (opts : List OptionData),
      buildFilteredChain P ot (some v) opts =
        buildFilteredChain P ot (some (max 0 (min 100 v))) opts) := by
  refine ⟨rfl, fun v => rfl, ?_, ?_⟩
  · intro v
    exact ⟨le_max_left 0 _, max_le (by norm_num) (min_le_left _ _)⟩
  · intro P ot v opts
    have hsp : strikePercentage (some (max 0 (min 100 v))) =
        strikePercentage (some v) := clamp_idem v
    simp only [buildFilteredChain, hsp]

/-- Counterexample to C8: the empty-`strike_percentage` pipeline keeps a
strike-115 call at price 100 (fallback percentage 20, distance 15%,
divisible by 5), while the same request with `strike_percentage = 10`
drops it (115 is beyond the 10% upper bound 110) — so omitting the argument
does not behave as if `10` had been supplied. -/
theorem find_options_chain_default_not_ten :
    buildFilteredChain 100 none none [o115] ≠
      buildFilteredChain 100 none (some 10) [o115] := by
  have hsp10 : strikePercentage (some 10) = 10 := by
    norm_num [strikePercentage, min_def, max_def]
  have h1 : buildFilteredChain 100 none none [o115] = [o115] := by
    simp only [buildFilteredChain, List.filter_cons, List.filter_nil,
      o115_quality, if_true, strikePercentage,
      filterSignificantStrikePrices_eq_filter, List.map_cons, List.map_nil,
      o115_strike]
    simp [List.mergeSort, significantTest_100_20_115]
  have h2 : buildFilteredChain 100 none (some 10) [o115] = [] := by
    simp only [buildFilteredChain, List.filter_cons, List.filter_nil,
      o115_quality, if_true, hsp10,
      filterSignificantStrikePrices_eq_filter, List.map_cons, List.map_nil,
      o115_strike]
    simp [List.mergeSort, significantTest_100_10_115]
  rw [h1, h2]
  simp

/-- Amended C8: the tool's inputSchema advertises `10` as the default
`strike_percentage`, and a request that supplies that advertised default is
clamped to `10`; but when `strike_percentage` is omitted the handler falls
back to `20`, so an invocation without the argument behaves as if `20` — not
`10` — had been supplied. -/
theorem schema_default_ten_but_handler_default_twenty :
    toolSchemaStrikePercentageDefault = 10 ∧
    strikePercentage (some toolSchemaStrikePercentageDefault) = 10 ∧
    strikePercentage none = 20 := by
  refine ⟨rfl, ?_, rfl⟩
  norm_num [strikePercentage, toolSchemaStrikePercentageDefault]

/-- C9: with an underlying price of `0` the bounds collapse to `[0,0]`, so the
Significance Selector returns exactly the input entries whose strike is `0`
and drops everything else, yielding a definite result. -/
theorem zero_price_keeps_only_zero_strikes (R : ℚ) (strikes : List ℚ)
    (hR0 : 0 ≤ R) (hR1 : R ≤ 100) :
    filterSignificantStrikePrices 0 R strikes =
      strikes.filter (fun s => decide (s = 0)) := by
  rw [filterSignificantStrikePrices_eq_filter]
  have hq : ∀ s : ℚ, significantTest 0 R s = decide (s = 0) := by
    intro s
    rcases lt_trichotomy s 0 with hlt | heq | hgt
    · simp [significantTest, filterStrikesByPercentage, not_le.mpr hlt, hlt.ne]
    · subst heq
      simp [significantTest, filterStrikesByPercentage, keepSignificant,
        significantDistance]
    · simp [significantTest, filterStrikesByPercentage, not_le.mpr hgt, hgt.ne']
  rw [List.filter_congr (fun x _ => hq x), List.filter_eq, List.filter_eq]
  rw [(List.mergeSort_perm strikes _).count_eq 0]

theorem zero_price_keeps_only_zero_strikes_witness :
    filterSignificantStrikePrices 0 50 [0, 7/2, -1, 0] =
      List.filter (fun s => decide (s = 0)) [0, 7/2, -1, 0] :=
  zero_price_keeps_only_zero_strikes 50 [0, 7/2, -1, 0] (by norm_num) (by norm_num)

/-- C10: with the token environment variable unset, every find-options-chain
invocation fails with the token error message and no fetch is issued. -/
theorem missing_token_fails_before_any_fetch (params : FindOptionsChainParams)
    (quoteResult : Except String (Option ℚ))
    (chainResult : Except String (List OptionData)) :
    findOptionsChainHandler none params quoteResult chainResult =
      (Except.error "API token is missing. Please set the 'token' environment variable.",
        []) := rfl
